import Mathlib

/-!
Verification of the lightroom-mcp broker relay and its MCP server layer.

The broker core (`broker.py`) is exercised by the repository's tests
(`tests/test_broker_unit.py`, `tests/test_broker_integration.py`) and started
by `start_broker.py`, but its module source is not present; its state and
operations are modelled from the specification (§3, §4, §6, §8), keeping the
observable names the tests rely on (`pending_requests`, `request_queue`,
`broker_stats`, `update_lr_connection_status`, the `_broker_uuid` token field).
The MCP server layer (`server.py`) and the plugin client (`lrc_client.py`)
are embedded directly from their source.
-/

/-- JSON values as exchanged in the wire envelopes (§6). -/
inductive Json where
  | null : Json
  | bool : Bool → Json
  | num : Int → Json
  | str : String → Json
  | obj : List (String × Json) → Json

/-- Field lookup in a JSON object; `none` on non-objects or missing keys. -/
def Json.getField : Json → String → Option Json
  | Json.obj fields, k => fields.lookup k
  | _, _ => none

namespace Broker

/-- Modelled from the spec: `LR_CONNECTION_TIMEOUT`, the liveness threshold
("`connectedThreshold = 5s` in the reference configuration", §8). -/
def LR_CONNECTION_TIMEOUT : Nat := 5

/-- Modelled from the spec: one entry of `pending_requests` — the
CorrelationEntry of §3 joined with the result slot shape the unit test
observes: `{"request": ..., "event": ..., "response": ..., "started_at": ...}`. -/
structure PendingEntry where
  request : Json
  eventSet : Bool
  response : Option Json
  startedAt : Nat

/-- Modelled from the spec: the broker's owned state (§3, §9): the pending
queue, the correlation table, the counters and the connection-liveness data. -/
structure BrokerState where
  pendingRequests : List (String × PendingEntry)
  requestQueue : List Json
  requestsTotal : Nat
  requestsSuccess : Nat
  requestsFailed : Nat
  requestsTimeout : Nat
  lightroomLastPoll : Option Nat
  lightroomConnected : Bool

/-- Modelled from the spec: the broker's initial state (empty queue and table,
zeroed counters, no contact yet). -/
def initialState : BrokerState :=
  { pendingRequests := []
    requestQueue := []
    requestsTotal := 0
    requestsSuccess := 0
    requestsFailed := 0
    requestsTimeout := 0
    lightroomLastPoll := none
    lightroomConnected := false }

/-- Modelled from the spec: `enqueue(request)` appends to the tail of the
pending queue (§4.1). -/
def enqueue (s : BrokerState) (req : Json) : BrokerState :=
  { s with requestQueue := s.requestQueue ++ [req] }

/-- Modelled from the spec: `dequeueNext()` removes and returns the head of
the pending queue, or returns empty if none (§4.1); the shared dequeue used
by both transports. -/
def dequeueNext (s : BrokerState) : Option Json × BrokerState :=
  match s.requestQueue with
  | [] => (none, s)
  | r :: rest => (some r, { s with requestQueue := rest })

/-- Modelled from the spec: `register(correlationId, deadline)` creates a
CorrelationEntry with an unsignalled wake handle and an empty result slot
(§4.2), atomically with the PendingRequest at call time (§3). -/
def register (s : BrokerState) (token : String) (req : Json) (now : Nat) :
    BrokerState :=
  { s with pendingRequests :=
      s.pendingRequests ++
        [(token, { request := req, eventSet := false, response := none,
                   startedAt := now })] }

/-- Modelled from the spec: the table update performed by a matching result
submission — fill the result slot and signal the waiter of the matching
entry, leaving every other entry untouched (§4.2; the unit test's
`handle_response` logic: set `response`, set `event`). -/
def fillResponse (l : List (String × PendingEntry)) (token : String)
    (resp : Json) : List (String × PendingEntry) :=
  l.map fun p =>
    if p.1 = token then
      (p.1, { p.2 with response := some resp, eventSet := true })
    else p

/-- Modelled from the spec: `resolve(correlationId, result) -> bool` fills the
result slot and signals the waiter, returning false if the id is unknown
(already resolved or timed out — discard, do not error loudly) (§4.2). -/
def resolve (s : BrokerState) (token : String) (resp : Json) :
    Bool × BrokerState :=
  if (s.pendingRequests.lookup token).isSome then
    (true, { s with pendingRequests := fillResponse s.pendingRequests token resp })
  else
    (false, s)

/-- Modelled from the spec: removal of a correlation entry, performed by the
facade after it unblocks the caller (§3 lifecycle). -/
def removeEntry (s : BrokerState) (token : String) : BrokerState :=
  { s with pendingRequests := s.pendingRequests.filter fun p => p.1 ≠ token }

/-- Modelled from the spec: the timeout exit of `awaitResult` (§4.3 step 3):
on timeout, remove the entry, increment the timeout counter, and surface a
timeout error to the caller. -/
def timeoutCall (s : BrokerState) (token : String) : BrokerState :=
  { removeEntry s token with requestsTimeout := s.requestsTimeout + 1 }

/-- Modelled from the spec: the liveness recomputation
`update_lr_connection_status` — `connected = (now - lastContactAt) <
connectedThreshold`, disconnected when no contact has happened (§4.6, §3). -/
def update_lr_connection_status (now : Nat) (s : BrokerState) : BrokerState :=
  { s with lightroomConnected :=
      match s.lightroomLastPoll with
      | none => false
      | some t => now - t < LR_CONNECTION_TIMEOUT }

/-- Modelled from the spec: attach the broker-assigned correlation token to
the caller's envelope, a field distinct from the caller's `id` (§6; the
tests' `_broker_uuid` field). -/
def attachToken (req : Json) (token : String) : Json :=
  match req with
  | Json.obj fields => Json.obj (fields ++ [("_broker_uuid", Json.str token)])
  | j => j

/-- Modelled from the spec: the inbound facade's handling of `POST /request`
(§4.3 steps 1–2): generate a fresh correlation token, build the
PendingRequest, enqueue it, register a matching CorrelationEntry, and
increment the `total` counter. -/
def handleRequest (s : BrokerState) (req : Json) (token : String) (now : Nat) :
    BrokerState :=
  let env := attachToken req token
  let s1 := { s with requestsTotal := s.requestsTotal + 1 }
  register (enqueue s1 env) token env now

/-- Modelled from the spec: `pollNext()` of the poll transport (§4.4):
update `lastContactAt`, attempt `dequeueNext()`; return the request annotated
with its correlation token, or `none` ("nothing pending") immediately. -/
def pollNext (s : BrokerState) (now : Nat) : Option Json × BrokerState :=
  dequeueNext { s with lightroomLastPoll := some now }

/-- Modelled from the spec: `submitResult(correlationId, result)` (§4.4),
shared by `POST /response` and the socket read loop (§4.5, §9 design note on
transport-agnostic resolution): update `lastContactAt`, extract the
correlation token from the result envelope, and forward to `resolve`.
Unknown ids are accepted but ignored. -/
def submitResult (s : BrokerState) (resp : Json) (now : Nat) :
    Bool × BrokerState :=
  let s1 := { s with lightroomLastPoll := some now }
  match resp.getField "_broker_uuid" with
  | some (Json.str token) => resolve s1 token resp
  | _ => (false, s1)

/-- Modelled from the spec: the success exit of `awaitResult` (§4.2, §4.3
step 3): the signalled caller reads the filled result slot, the entry is
removed, and the `succeeded` counter is incremented. Returns `none` if the
waiter was never signalled. -/
def awaitSuccess (s : BrokerState) (token : String) : Option Json × BrokerState :=
  match s.pendingRequests.lookup token with
  | some e =>
      if e.eventSet then
        (e.response,
         { removeEntry s token with requestsSuccess := s.requestsSuccess + 1 })
      else (none, s)
  | none => (none, s)

/-- Modelled from the spec: the timeout exit of `awaitResult` as seen by the
caller (§4.3 step 3): a timeout error is surfaced and the entry is removed
with the timeout counter incremented. -/
def awaitTimeout (s : BrokerState) (token : String) :
    Except String Json × BrokerState :=
  (Except.error "Request timed out", timeoutCall s token)

/-- Modelled from the spec: one iteration of the socket push loop (§4.5):
the same `dequeueNext` as the poll transport, the taken request being written
to the connection (newline-delimited framing abstracted to delivery of the
envelope itself). -/
def socketPushNext (s : BrokerState) : Option Json × BrokerState :=
  dequeueNext s

end Broker

namespace Server

/-- JSON-RPC error code `INVALID_PARAMS` (from `mcp.types`, re-exported by
`server.py`'s `ErrorCode`). -/
def INVALID_PARAMS : Int := -32602

/-- JSON-RPC error code `INTERNAL_ERROR` (from `mcp.types`). -/
def INTERNAL_ERROR : Int := -32603

/-- `McpError`'s payload as raised by `raise_mcp_error` (server.py:26-28). -/
structure McpError where
  code : Int
  message : String
deriving DecidableEq

/-- Python exceptions relevant to the embedded server code paths. -/
inductive PyErr where
  | importError (name : String)
  | attributeError (name : String)
deriving DecidableEq

/-- Python truthiness of a decoded JSON value (`if result and ...`). -/
def Json.truthy : Json → Bool
  | Json.null => false
  | Json.bool b => b
  | Json.num n => n != 0
  | Json.str s => s ≠ ""
  | Json.obj fields => !fields.isEmpty

/-- The `message` string of a Lightroom error object
(`result['error']['message']`, server.py). -/
def errorMessage (errv : Json) : String :=
  match errv.getField "message" with
  | some (Json.str m) => m
  | _ => ""

/-- The shared tail of every tool in server.py: inspect `send_command`'s
outcome (an exception, `None`, or a decoded response) and produce the tool's
result — `if result and "result" in result: return ...; elif result and
"error" in result: INTERNAL_ERROR; else: "No response from Lightroom"`;
any exception becomes an INTERNAL_ERROR `"Error: ..."`. -/
def toolSendOutcome (lr : Except String (Option Json)) (okMsg : String) :
    Except McpError String :=
  match lr with
  | Except.error e => Except.error ⟨INTERNAL_ERROR, "Error: " ++ e⟩
  | Except.ok none => Except.error ⟨INTERNAL_ERROR, "No response from Lightroom"⟩
  | Except.ok (some r) =>
      if Json.truthy r ∧ (r.getField "result").isSome then
        Except.ok okMsg
      else if Json.truthy r ∧ (r.getField "error").isSome then
        match r.getField "error" with
        | some errv =>
            Except.error ⟨INTERNAL_ERROR, "Lightroom error: " ++ errorMessage errv⟩
        | none => Except.error ⟨INTERNAL_ERROR, "No response from Lightroom"⟩
      else
        Except.error ⟨INTERNAL_ERROR, "No response from Lightroom"⟩

/-- A tool invocation's observable outcome: its result and the commands it
transmitted to Lightroom via `send_command`. -/
structure ToolRun where
  result : Except McpError String
  sent : List (String × Json)

/-- `set_rating` (server.py:120-143): validate `0 <= rating <= 5` before any
`send_command`; on failure raise INVALID_PARAMS with nothing sent. The
parameter `lr` stands for the outcome `send_command` would produce. -/
def set_rating (rating : Int) (lr : Except String (Option Json)) : ToolRun :=
  if ¬(0 ≤ rating ∧ rating ≤ 5) then
    { result := Except.error ⟨INVALID_PARAMS, "Rating must be between 0 and 5"⟩
      sent := [] }
  else
    { result := toolSendOutcome lr "Success"
      sent := [("set_rating", Json.obj [("rating", Json.num rating)])] }

/-- `valid_labels` (server.py:153). -/
def valid_labels : List String := ["Red", "Yellow", "Green", "Blue", "Purple", "None"]

/-- `set_label` (server.py:145-169): validate membership in `valid_labels`
before any `send_command`; on failure raise INVALID_PARAMS with nothing
sent. -/
def set_label (label : String) (lr : Except String (Option Json)) : ToolRun :=
  if label ∉ valid_labels then
    { result := Except.error
        ⟨INVALID_PARAMS,
         "Label must be one of ['Red', 'Yellow', 'Green', 'Blue', 'Purple', 'None']"⟩
      sent := [] }
  else
    { result := toolSendOutcome lr "Success"
      sent := [("set_label", Json.obj [("label", Json.str label)])] }

/-- The top-level names defined by the module `lrc_client.py`: its imports
`socket`, `json`, `logging`, the module-level `logger`, and the class
`LrCClient` — the complete module namespace of that file. -/
def lrcClientModuleNames : List String :=
  ["socket", "json", "logging", "logger", "LrCClient"]

/-- The attributes of an `LrCClient` instance: the fields set in `__init__`
(`host`, `port`, `sock`) and the methods defined by the class
(`connect`, `send_command`, `close`) — lrc_client.py:7-70. -/
def lrcClientAttrs : List String :=
  ["host", "port", "sock", "connect", "send_command", "close"]

/-- `get_lightroom_status` (server.py:1632-1636): executes
`from lrc_client import check_plugin_status` at call time and would return
`check_plugin_status()`; importing a name the module does not define raises
`ImportError`, so the call-site branch is reached only if the name exists. -/
def get_lightroom_status : Except PyErr Json :=
  if "check_plugin_status" ∈ lrcClientModuleNames then
    Except.ok (Json.obj [])  -- dead branch: the name is absent, so the call never happens
  else
    Except.error (PyErr.importError "check_plugin_status")

/-- `app_lifespan` startup (server.py:61-71): constructs `LrCClient()` and
evaluates `lrc._ensure_broker_running()`; Python attribute lookup on a name
the instance does not have raises `AttributeError` before the `yield` of the
application context. `Except.ok` means the context was yielded. -/
def app_lifespan_startup : Except PyErr Unit :=
  if "_ensure_broker_running" ∈ lrcClientAttrs then
    Except.ok ()  -- dead branch: would proceed to yield AppContext(lrc=lrc)
  else
    Except.error (PyErr.attributeError "_ensure_broker_running")

end Server

namespace LrcClient

/-- The connection stage of the Python socket object held in `self.sock`:
`unconnected` is a freshly constructed socket whose `connect` call failed
(lrc_client.py:15-17 assigns the object before connecting). -/
inductive Sock where
  | unconnected
  | connected
deriving DecidableEq

/-- The mutable state of an `LrCClient`: its `sock` field (`None` or a
socket object). -/
structure ClientState where
  sock : Option Sock
deriving DecidableEq

/-- What the responder reads back on a successful send: an exception during
`recv`/decode/`json.loads`, an empty response line (`send_command` returns
`None`), or a decoded JSON value. -/
inductive RecvOutcome where
  | fail
  | emptyLine
  | value (j : Json)

/-- The external conditions for one `send_command` call: whether
`sock.connect` would succeed, whether `sendall` succeeds on a connected
socket, and what reading the response yields. -/
structure Env where
  connectOk : Bool
  sendOk : Bool
  recv : RecvOutcome

/-- The errors `send_command` can raise: `ConnectionError("Not connected to
LrC")` from the guard, or the re-raised communication exception from the
`try` block. -/
inductive SendErr where
  | connectionError
  | commError
deriving DecidableEq

/-- `LrCClient.connect` (lrc_client.py:13-25): constructs a socket and
assigns it to `self.sock`, then attempts the TCP connect; returns `True` on
success and `False` on failure — in the failure case `self.sock` holds the
fresh, unconnected socket object. -/
def connect (env : Env) (_s : ClientState) : Bool × ClientState :=
  if env.connectOk then (true, { sock := some Sock.connected })
  else (false, { sock := some Sock.unconnected })

/-- One `send_command` call's observable outcome: its return or raised
error, the client state it leaves behind, whether `connect` was attempted,
and whether the request bytes were sent. -/
structure SendRun where
  result : Except SendErr (Option Json)
  state : ClientState
  connectAttempted : Bool
  sentRequest : Bool

/-- The `try` block of `send_command` (lrc_client.py:40-65), entered with
`self.sock` non-`None`: send the request and read the newline-delimited
response; on any exception, close the socket, set `self.sock = None`, and
re-raise. `sendall` on an unconnected socket object raises immediately, so
nothing is transmitted on that path. -/
def sendOnSocket (env : Env) (s : ClientState) (attempted : Bool) : SendRun :=
  match s.sock with
  | some Sock.unconnected =>
      { result := Except.error SendErr.commError
        state := { sock := none }
        connectAttempted := attempted
        sentRequest := false }
  | some Sock.connected =>
      if env.sendOk then
        match env.recv with
        | RecvOutcome.fail =>
            { result := Except.error SendErr.commError
              state := { sock := none }
              connectAttempted := attempted
              sentRequest := true }
        | RecvOutcome.emptyLine =>
            { result := Except.ok none
              state := s
              connectAttempted := attempted
              sentRequest := true }
        | RecvOutcome.value j =>
            { result := Except.ok (some j)
              state := s
              connectAttempted := attempted
              sentRequest := true }
      else
        { result := Except.error SendErr.commError
          state := { sock := none }
          connectAttempted := attempted
          sentRequest := false }
  | none =>
      { result := Except.error SendErr.commError
        state := { sock := none }
        connectAttempted := attempted
        sentRequest := false }

/-- `LrCClient.send_command` (lrc_client.py:27-65): if `self.sock` is
`None`, call `connect` and raise `ConnectionError("Not connected to LrC")`
if it fails (nothing sent); otherwise run the `try` block on the held
socket. -/
def send_command (env : Env) (s : ClientState) : SendRun :=
  match s.sock with
  | none =>
      let c := connect env s
      if c.1 then
        sendOnSocket env c.2 true
      else
        { result := Except.error SendErr.connectionError
          state := c.2
          connectAttempted := true
          sentRequest := false }
  | some _ => sendOnSocket env s false

end LrcClient

namespace Broker

theorem lookup_fillResponse_self (l : List (String × PendingEntry))
    (token : String) (resp : Json) :
    (fillResponse l token resp).lookup token =
      (l.lookup token).map
        (fun e => { e with response := some resp, eventSet := true }) := by
  induction l with
  | nil => rfl
  | cons p t ih =>
    obtain ⟨k, e⟩ := p
    by_cases hk : k = token
    · subst hk
      simp [fillResponse, List.lookup_cons]
    · have hk' : (token == k) = false :=
        beq_false_of_ne fun h => hk h.symm
      simp only [fillResponse, List.map_cons] at ih ⊢
      rw [if_neg hk]
      simp [List.lookup_cons, hk', ih]

theorem mem_fillResponse_of_ne {l : List (String × PendingEntry)}
    {token t' : String} {e' : PendingEntry} (hne : t' ≠ token) (resp : Json) :
    (t', e') ∈ fillResponse l token resp ↔ (t', e') ∈ l := by
  simp only [fillResponse]
  constructor
  · intro h
    rcases List.mem_map.1 h with ⟨⟨k, ev⟩, hmem, heq⟩
    split at heq
    · cases heq
      exact absurd (by assumption) hne
    · cases heq
      exact hmem
  · intro h
    exact List.mem_map.2 ⟨(t', e'), h, by simp [hne]⟩

theorem lookup_filter_ne_self (l : List (String × PendingEntry))
    (token : String) :
    (l.filter fun p => p.1 ≠ token).lookup token = none := by
  induction l with
  | nil => rfl
  | cons p t ih =>
    obtain ⟨k, e⟩ := p
    by_cases hk : k = token
    · simpa [List.filter_cons, hk] using ih
    · have hk' : (token == k) = false :=
        beq_false_of_ne fun h => hk h.symm
      simpa [List.filter_cons, hk, List.lookup_cons, hk'] using ih

theorem resolve_unknown (s : BrokerState) (token : String) (env : Json)
    (h : s.pendingRequests.lookup token = none) :
    resolve s token env = (false, s) := by
  simp [resolve, h]

theorem lookup_timeoutCall_self (s : BrokerState) (token : String) :
    (timeoutCall s token).pendingRequests.lookup token = none :=
  lookup_filter_ne_self s.pendingRequests token

end Broker

namespace LrcClient

theorem sendOnSocket_state_of_commError (env : Env) (s : ClientState)
    (a : Bool)
    (h : (sendOnSocket env s a).result = Except.error SendErr.commError) :
    (sendOnSocket env s a).state.sock = none := by
  rcases s with ⟨(_ | (_ | _))⟩
  · rfl
  · rfl
  · by_cases hs : env.sendOk
    · rcases hr : env.recv with _ | _ | j
      · simp [sendOnSocket, hs, hr]
      · simp [sendOnSocket, hs, hr] at h
      · simp [sendOnSocket, hs, hr] at h
    · simp [sendOnSocket, hs]

theorem send_command_state_of_commError (env : Env) (s : ClientState)
    (h : (send_command env s).result = Except.error SendErr.commError) :
    (send_command env s).state.sock = none := by
  rcases s with ⟨(_ | sk)⟩
  · by_cases hc : env.connectOk
    · have hcomp : send_command env ⟨none⟩ =
          sendOnSocket env ⟨some Sock.connected⟩ true := by
        simp [send_command, connect, hc]
      rw [hcomp] at h ⊢
      exact sendOnSocket_state_of_commError _ _ _ h
    · have hcomp : (send_command env ⟨none⟩).result =
          Except.error SendErr.connectionError := by
        simp [send_command, connect, hc]
      rw [hcomp] at h
      simp at h
  · exact sendOnSocket_state_of_commError env ⟨some sk⟩ false h

theorem send_command_connects_of_no_sock (env : Env) (s : ClientState)
    (h : s.sock = none) : (send_command env s).connectAttempted = true := by
  rcases s with ⟨sk⟩
  cases h
  by_cases hc : env.connectOk
  · by_cases hs : env.sendOk
    · rcases hr : env.recv with _ | _ | j <;>
        simp [send_command, connect, hc, sendOnSocket, hs, hr]
    · simp [send_command, connect, hc, sendOnSocket, hs]
  · simp [send_command, connect, hc]

theorem send_command_connect_fail (env : Env) (s : ClientState)
    (h : s.sock = none) (hc : env.connectOk = false) :
    (send_command env s).result = Except.error SendErr.connectionError ∧
    (send_command env s).sentRequest = false := by
  rcases s with ⟨sk⟩
  cases h
  constructor <;> simp [send_command, connect, hc]

end LrcClient

/-- C4: submitting a result for an unregistered correlation token is a
no-op: `resolve` reports `false` rather than failing loudly, signals no
waiter, and leaves the whole broker state — in particular every registered
pending entry — unchanged. -/
theorem c4_unknown_token_resolve_noop (s : Broker.BrokerState) (token : String)
    (env : Json) (h : s.pendingRequests.lookup token = none) :
    Broker.resolve s token env = (false, s) := by
  simp [Broker.resolve, h]

/-- C4 witness: a concrete two-submission run — the first submission
resolves the entry, the caller's success exit removes it, and the second
submission for the same token is a no-op returning `false`. -/
theorem c4_unknown_token_resolve_noop_witness :
    (let s0 := Broker.register Broker.initialState "test-uuid" (Json.obj []) 0
     let r1 := Broker.resolve s0 "test-uuid"
       (Json.obj [("_broker_uuid", Json.str "test-uuid"),
                  ("result", Json.str "success")])
     let s2 := (Broker.awaitSuccess r1.2 "test-uuid").2
     r1.1 = true ∧
     s2.pendingRequests.lookup "test-uuid" = none ∧
     Broker.resolve s2 "test-uuid" (Json.obj [("result", Json.str "late")]) =
       (false, s2)) := by
  refine ⟨rfl, rfl, ?_⟩
  exact c4_unknown_token_resolve_noop _ "test-uuid" _ rfl

/-- C5: the pending queue is FIFO — `enqueue` appends at the tail,
`dequeueNext` removes from the head, and if A then B are enqueued onto an
empty queue before any dequeue, the first dequeue returns A and the next
returns B. -/
theorem c5_fifo_queue (s : Broker.BrokerState) (A B : Json)
    (hempty : s.requestQueue = []) :
    (∀ s' r, (Broker.enqueue s' r).requestQueue = s'.requestQueue ++ [r]) ∧
    (∀ (s' : Broker.BrokerState) (r : Json) (rest : List Json),
       s'.requestQueue = r :: rest →
       Broker.dequeueNext s' = (some r, { s' with requestQueue := rest })) ∧
    (Broker.dequeueNext (Broker.enqueue (Broker.enqueue s A) B)).1 = some A ∧
    (Broker.dequeueNext
       (Broker.dequeueNext (Broker.enqueue (Broker.enqueue s A) B)).2).1 =
      some B := by
  refine ⟨fun s' r => rfl, ?_, ?_, ?_⟩
  · intro s' r rest h
    simp [Broker.dequeueNext, h]
  · simp [Broker.enqueue, Broker.dequeueNext, hempty]
  · simp [Broker.enqueue, Broker.dequeueNext, hempty]

/-- C5 witness: the FIFO property at a concrete broker state and two
concrete requests. -/
theorem c5_fifo_queue_witness :
    (∀ s' r, (Broker.enqueue s' r).requestQueue = s'.requestQueue ++ [r]) ∧
    (∀ (s' : Broker.BrokerState) (r : Json) (rest : List Json),
       s'.requestQueue = r :: rest →
       Broker.dequeueNext s' = (some r, { s' with requestQueue := rest })) ∧
    (Broker.dequeueNext
       (Broker.enqueue (Broker.enqueue Broker.initialState (Json.str "A"))
         (Json.str "B"))).1 = some (Json.str "A") ∧
    (Broker.dequeueNext
       (Broker.dequeueNext
          (Broker.enqueue (Broker.enqueue Broker.initialState (Json.str "A"))
            (Json.str "B"))).2).1 = some (Json.str "B") :=
  c5_fifo_queue Broker.initialState (Json.str "A") (Json.str "B") rfl

/-- C6: recomputing the derived liveness status yields
`connected = (now - lastContactAt) < connectedThreshold`: just after a
contact the status is connected, and once the threshold (5s) elapses with no
further contact it is disconnected. -/
theorem c6_liveness_invariant (s : Broker.BrokerState) (now t : Nat)
    (h : s.lightroomLastPoll = some t) :
    ((Broker.update_lr_connection_status now s).lightroomConnected = true ↔
       now - t < Broker.LR_CONNECTION_TIMEOUT) ∧
    (Broker.update_lr_connection_status t s).lightroomConnected = true ∧
    (∀ now', t + Broker.LR_CONNECTION_TIMEOUT ≤ now' →
       (Broker.update_lr_connection_status now' s).lightroomConnected = false) := by
  refine ⟨?_, ?_, ?_⟩
  · simp [Broker.update_lr_connection_status, h]
  · simp [Broker.update_lr_connection_status, h, Broker.LR_CONNECTION_TIMEOUT]
  · intro now' hge
    simp only [Broker.update_lr_connection_status, h, decide_eq_false_iff_not,
      not_lt]
    omega

/-- C6 witness: the liveness invariant at a concrete state whose last
contact was at time 100, evaluated per the reference threshold of 5s. -/
theorem c6_liveness_invariant_witness :
    (let s := { Broker.initialState with lightroomLastPoll := some 100 }
     ((Broker.update_lr_connection_status 103 s).lightroomConnected = true ↔
        103 - 100 < Broker.LR_CONNECTION_TIMEOUT) ∧
     (Broker.update_lr_connection_status 100 s).lightroomConnected = true ∧
     (∀ now', 100 + Broker.LR_CONNECTION_TIMEOUT ≤ now' →
        (Broker.update_lr_connection_status now' s).lightroomConnected = false)) :=
  c6_liveness_invariant _ 103 100 rfl

/-- C9: `set_rating` with a rating outside [0, 5] and `set_label` with a
label outside the valid set each raise an INVALID_PARAMS error before
`send_command` is invoked: no command is transmitted to Lightroom on the
invalid-input path. -/
theorem c9_input_validation (rating : Int) (label : String)
    (lr : Except String (Option Json))
    (hr : rating < 0 ∨ 5 < rating) (hl : label ∉ Server.valid_labels) :
    ((Server.set_rating rating lr).result =
       Except.error ⟨Server.INVALID_PARAMS, "Rating must be between 0 and 5"⟩ ∧
     (Server.set_rating rating lr).sent = []) ∧
    ((Server.set_label label lr).result =
       Except.error
         ⟨Server.INVALID_PARAMS,
          "Label must be one of ['Red', 'Yellow', 'Green', 'Blue', 'Purple', 'None']"⟩ ∧
     (Server.set_label label lr).sent = []) := by
  have hr' : ¬(0 ≤ rating ∧ rating ≤ 5) := by omega
  constructor
  · simp [Server.set_rating, hr']
  · simp [Server.set_label, hl]

/-- C1: submitting a result envelope for a registered, not-yet-expired
correlation token unblocks exactly the caller that registered it: `resolve`
reports success, the matching pending entry's response field equals the
submitted envelope and its wake event is set, and every other pending entry
is left exactly as it was. -/
theorem c1_round_trip_resolve (s : Broker.BrokerState) (token : String)
    (e : Broker.PendingEntry) (env : Json)
    (hreg : s.pendingRequests.lookup token = some e) :
    (Broker.resolve s token env).1 = true ∧
    (Broker.resolve s token env).2.pendingRequests.lookup token =
      some { e with response := some env, eventSet := true } ∧
    (∀ (t' : String) (e' : Broker.PendingEntry), t' ≠ token →
       ((t', e') ∈ (Broker.resolve s token env).2.pendingRequests ↔
        (t', e') ∈ s.pendingRequests)) := by
  have hsome : (s.pendingRequests.lookup token).isSome = true := by
    rw [hreg]; rfl
  refine ⟨?_, ?_, ?_⟩
  · simp [Broker.resolve, hsome]
  · simp [Broker.resolve, hsome, Broker.lookup_fillResponse_self, hreg]
  · intro t' e' hne
    simp only [Broker.resolve, hsome, if_true]
    exact Broker.mem_fillResponse_of_ne hne env

/-- C1 witness: the round trip at a freshly registered token "test-uuid"
and the unit test's result envelope. -/
theorem c1_round_trip_resolve_witness :
    (let s0 := Broker.register Broker.initialState "test-uuid" (Json.obj []) 0
     let env := Json.obj [("_broker_uuid", Json.str "test-uuid"),
                          ("result", Json.str "success")]
     let e0 : Broker.PendingEntry :=
       { request := Json.obj [], eventSet := false, response := none,
         startedAt := 0 }
     s0.pendingRequests.lookup "test-uuid" = some e0 ∧
     ((Broker.resolve s0 "test-uuid" env).1 = true ∧
      (Broker.resolve s0 "test-uuid" env).2.pendingRequests.lookup "test-uuid" =
        some { e0 with response := some env, eventSet := true } ∧
      (∀ (t' : String) (e' : Broker.PendingEntry), t' ≠ "test-uuid" →
         ((t', e') ∈ (Broker.resolve s0 "test-uuid" env).2.pendingRequests ↔
          (t', e') ∈ s0.pendingRequests)))) :=
  ⟨rfl, c1_round_trip_resolve _ "test-uuid" _ _ rfl⟩

/-- C3: a call that receives no result within its timeout surfaces a
timeout error to the caller, its correlation entry is removed, and the
timeout counter is incremented; any result submitted afterward for that
token is accepted without error but changes nothing a caller can observe. -/
theorem c3_timeout_drops_late_result (s : Broker.BrokerState) (token : String)
    (e : Broker.PendingEntry)
    (hreg : s.pendingRequests.lookup token = some e)
    (hnores : e.eventSet = false) :
    (Broker.awaitTimeout s token).1 = Except.error "Request timed out" ∧
    (Broker.awaitTimeout s token).2.requestsTimeout = s.requestsTimeout + 1 ∧
    (Broker.awaitTimeout s token).2.pendingRequests.lookup token = none ∧
    (∀ env, Broker.resolve (Broker.awaitTimeout s token).2 token env =
       (false, (Broker.awaitTimeout s token).2)) := by
  refine ⟨rfl, rfl, Broker.lookup_timeoutCall_self s token, ?_⟩
  intro env
  exact Broker.resolve_unknown _ token env (Broker.lookup_timeoutCall_self s token)

/-- C3 witness: a registered, never-signalled entry for "test-uuid" times
out with the counter incremented, and a late submission is dropped. -/
theorem c3_timeout_drops_late_result_witness :
    (let s0 := Broker.register Broker.initialState "test-uuid" (Json.obj []) 5
     s0.pendingRequests.lookup "test-uuid" =
       some { request := Json.obj [], eventSet := false, response := none,
              startedAt := 5 } ∧
     (false : Bool) = false ∧
     ((Broker.awaitTimeout s0 "test-uuid").1 =
        Except.error "Request timed out" ∧
      (Broker.awaitTimeout s0 "test-uuid").2.requestsTimeout =
        s0.requestsTimeout + 1 ∧
      (Broker.awaitTimeout s0 "test-uuid").2.pendingRequests.lookup
        "test-uuid" = none ∧
      (∀ env, Broker.resolve (Broker.awaitTimeout s0 "test-uuid").2
         "test-uuid" env = (false, (Broker.awaitTimeout s0 "test-uuid").2)))) :=
  ⟨rfl, rfl, c3_timeout_drops_late_result _ "test-uuid" _ rfl rfl⟩

/-- C7: reading the lightroom://status resource does not return the status
dictionary the spec describes: the embedded `get_lightroom_status` raises
ImportError, since `lrc_client.py`'s module namespace contains no
`check_plugin_status`. -/
theorem c7_status_raises_import_error :
    Server.get_lightroom_status =
      Except.error (Server.PyErr.importError "check_plugin_status") ∧
    "check_plugin_status" ∉ Server.lrcClientModuleNames := by
  constructor
  · rfl
  · decide

/-- C8: `app_lifespan` always fails at startup: it calls
`_ensure_broker_running` on a fresh `LrCClient`, whose attributes do not
include that name, so an AttributeError is raised before the application
context is yielded. -/
theorem c8_lifespan_attribute_error :
    Server.app_lifespan_startup =
      Except.error (Server.PyErr.attributeError "_ensure_broker_running") ∧
    "_ensure_broker_running" ∉ Server.lrcClientAttrs := by
  constructor
  · rfl
  · decide

/-- C10: `send_command` closes the socket and sets it to `None` before
raising on any communication failure, so the next `send_command` on the same
client attempts a fresh connect; and on a client with no socket it attempts
a connect first, raising ConnectionError without sending anything when the
connect fails. -/
theorem c10_send_command_socket_invariant (env env' : LrcClient.Env)
    (s : LrcClient.ClientState) :
    ((LrcClient.send_command env s).result =
        Except.error LrcClient.SendErr.commError →
      (LrcClient.send_command env s).state.sock = none ∧
      (LrcClient.send_command env'
         (LrcClient.send_command env s).state).connectAttempted = true) ∧
    (s.sock = none →
      (LrcClient.send_command env s).connectAttempted = true ∧
      (env.connectOk = false →
        (LrcClient.send_command env s).result =
          Except.error LrcClient.SendErr.connectionError ∧
        (LrcClient.send_command env s).sentRequest = false)) := by
  constructor
  · intro hres
    have hnone := LrcClient.send_command_state_of_commError env s hres
    exact ⟨hnone, LrcClient.send_command_connects_of_no_sock env' _ hnone⟩
  · intro hs
    exact ⟨LrcClient.send_command_connects_of_no_sock env s hs,
           fun hc => LrcClient.send_command_connect_fail env s hs hc⟩

/-- C10 witness: a connected client whose send fails ends with `sock =
None` and the next call attempts a connect; a sockless client with a
refused connection raises ConnectionError having sent nothing. -/
theorem c10_send_command_socket_invariant_witness :
    (let envFail : LrcClient.Env :=
       { connectOk := true, sendOk := false, recv := LrcClient.RecvOutcome.emptyLine }
     let sConn : LrcClient.ClientState := ⟨some LrcClient.Sock.connected⟩
     (LrcClient.send_command envFail sConn).result =
       Except.error LrcClient.SendErr.commError ∧
     ((LrcClient.send_command envFail sConn).state.sock = none ∧
      (LrcClient.send_command envFail
         (LrcClient.send_command envFail sConn).state).connectAttempted = true)) ∧
    (let envRefused : LrcClient.Env :=
       { connectOk := false, sendOk := true, recv := LrcClient.RecvOutcome.emptyLine }
     let sNone : LrcClient.ClientState := ⟨none⟩
     sNone.sock = none ∧ envRefused.connectOk = false ∧
     ((LrcClient.send_command envRefused sNone).connectAttempted = true ∧
      ((LrcClient.send_command envRefused sNone).result =
         Except.error LrcClient.SendErr.connectionError ∧
       (LrcClient.send_command envRefused sNone).sentRequest = false))) :=
  ⟨⟨rfl, (c10_send_command_socket_invariant _ _ _).1 rfl⟩,
   ⟨rfl, rfl,
    ⟨((c10_send_command_socket_invariant
         { connectOk := false, sendOk := true,
           recv := LrcClient.RecvOutcome.emptyLine }
         { connectOk := false, sendOk := true,
           recv := LrcClient.RecvOutcome.emptyLine } ⟨none⟩).2 rfl).1,
     ((c10_send_command_socket_invariant
         { connectOk := false, sendOk := true,
           recv := LrcClient.RecvOutcome.emptyLine }
         { connectOk := false, sendOk := true,
           recv := LrcClient.RecvOutcome.emptyLine } ⟨none⟩).2 rfl).2 rfl⟩⟩⟩

/-- C2: a full request cycle over each transport returns the responder's
result to the original caller. HTTP: the posted `test_method` request is
polled back with its correlation token, and after the responder submits
`result:"success"` for that token the caller's awaited body is exactly that
envelope. Socket: the pushed `socket_test` envelope carries the token, and
the responder's `result:"socket_success"` envelope for the same token is
returned to the caller. -/
theorem c2_full_request_cycles :
    (let req : Json := Json.obj
       [("jsonrpc", Json.str "2.0"), ("method", Json.str "test_method"),
        ("id", Json.num 1), ("params", Json.obj [("foo", Json.str "bar")])]
     let s1 := Broker.handleRequest Broker.initialState req "uuid-1" 0
     let polled := Broker.pollNext s1 1
     let resp : Json := Json.obj
       [("jsonrpc", Json.str "2.0"), ("result", Json.str "success"),
        ("id", Json.num 1), ("_broker_uuid", Json.str "uuid-1")]
     let submitted := Broker.submitResult polled.2 resp 2
     let awaited := Broker.awaitSuccess submitted.2 "uuid-1"
     polled.1.bind (fun e => e.getField "method") =
       some (Json.str "test_method") ∧
     polled.1.bind (fun e => e.getField "_broker_uuid") =
       some (Json.str "uuid-1") ∧
     submitted.1 = true ∧
     awaited.1 = some resp ∧
     resp.getField "result" = some (Json.str "success")) ∧
    (let req : Json := Json.obj
       [("jsonrpc", Json.str "2.0"), ("method", Json.str "socket_test"),
        ("id", Json.num 2), ("params", Json.obj [])]
     let s1 := Broker.handleRequest Broker.initialState req "uuid-2" 0
     let pushed := Broker.socketPushNext s1
     let resp : Json := Json.obj
       [("jsonrpc", Json.str "2.0"), ("result", Json.str "socket_success"),
        ("id", Json.num 2), ("_broker_uuid", Json.str "uuid-2")]
     let submitted := Broker.submitResult pushed.2 resp 1
     let awaited := Broker.awaitSuccess submitted.2 "uuid-2"
     pushed.1.bind (fun e => e.getField "method") =
       some (Json.str "socket_test") ∧
     pushed.1.bind (fun e => e.getField "_broker_uuid") =
       some (Json.str "uuid-2") ∧
     submitted.1 = true ∧
     awaited.1 = some resp ∧
     resp.getField "result" = some (Json.str "socket_success")) :=
  ⟨⟨rfl, rfl, rfl, rfl, rfl⟩, ⟨rfl, rfl, rfl, rfl, rfl⟩⟩

/-- C9 witness: rating 6 and label "Pink" are rejected with INVALID_PARAMS
and no command sent. -/
theorem c9_input_validation_witness :
    ((6 : Int) < 0 ∨ (5 : Int) < 6) ∧ "Pink" ∉ Server.valid_labels ∧
    (((Server.set_rating 6 (Except.ok none)).result =
        Except.error ⟨Server.INVALID_PARAMS, "Rating must be between 0 and 5"⟩ ∧
      (Server.set_rating 6 (Except.ok none)).sent = []) ∧
     ((Server.set_label "Pink" (Except.ok none)).result =
        Except.error
          ⟨Server.INVALID_PARAMS,
           "Label must be one of ['Red', 'Yellow', 'Green', 'Blue', 'Purple', 'None']"⟩ ∧
      (Server.set_label "Pink" (Except.ok none)).sent = [])) :=
  ⟨by decide, by decide,
   c9_input_validation 6 "Pink" (Except.ok none) (by decide) (by decide)⟩
